import Mathlib

/-!
Verification of the coverage-badge generator and the browser verification
scripts of the `televent` repository.

The badge generator (`scripts/generate_coverage_badge.py`) is embedded as a
pure function over an explicit environment: the outcome of parsing the XML
report (either an error message or the root element's attribute list) and the
outcome of writing the output file.  Python floats are modelled as exact
rationals (`ℚ`); Python's `float(...)` on the decimal literals that occur in
coverage reports is modelled by `floatOfString`; the `f"{x:.1f}"` format is
modelled by `fmt1`, rounding to the nearest tenth with ties to even, which is
the rounding CPython's float formatting performs on the represented value.

The verification scripts (`verification/verify_event_form.py` and
`verification/verify_event_list.py`) are embedded as functions from a world
(which fallible browser operation raises first, plus the page observations)
to the list of observable events they perform (prints, screenshots, closing
the browser).
-/

namespace Televent

/-- Character for a decimal digit `d < 10`. -/
def digitChar (d : ℕ) : Char := Char.ofNat (48 + d)

/-- Decimal digit characters of a natural number, most significant first;
structurally recursive on a fuel argument so that it evaluates in the
kernel.  Any fuel larger than `n` gives the digits of `n`. -/
def decCharsAux : ℕ → ℕ → List Char
  | 0, _ => []
  | fuel + 1, n =>
    if n < 10 then [digitChar n]
    else decCharsAux fuel (n / 10) ++ [digitChar (n % 10)]

/-- Decimal digit characters of a natural number, most significant first. -/
def decChars (n : ℕ) : List Char := decCharsAux (n + 1) n

/-- Numeric value of a decimal digit character. -/
def digitVal (c : Char) : ℕ := c.toNat - 48

/-- Natural number denoted by a list of decimal digit characters. -/
def digitsToNat (l : List Char) : ℕ := l.foldl (fun a c => 10 * a + digitVal c) 0

/-- Rational denoted by integer-part digits `ip` and fraction-part digits `fp`. -/
def decOfParts (ip fp : List Char) : ℚ :=
  (digitsToNat ip : ℚ) + (digitsToNat fp : ℚ) / (10 : ℚ) ^ fp.length

/-- Unsigned decimal literal: digits, optionally a point and more digits, at
least one digit in total. -/
def parseUnsignedDec (l : List Char) : Option ℚ :=
  let ip := l.takeWhile Char.isDigit
  match l.dropWhile Char.isDigit with
  | [] => if ip.isEmpty then none else some (digitsToNat ip)
  | '.' :: fp =>
    if fp.all Char.isDigit && !(ip.isEmpty && fp.isEmpty) then some (decOfParts ip fp)
    else none
  | _ => none

/-- Model of Python's `float(...)` on the decimal literals found in coverage
reports: an optional sign followed by an unsigned decimal literal.  Returns
`none` where `float` raises `ValueError`. -/
def floatOfString (s : String) : Option ℚ :=
  match s.toList with
  | '-' :: rest => (parseUnsignedDec rest).map (fun q => -q)
  | '+' :: rest => parseUnsignedDec rest
  | l => parseUnsignedDec l

/-- Round a rational to the nearest integer, ties to even (the rounding used
by CPython's float formatting on the represented value). -/
def rhe (q : ℚ) : ℤ :=
  let f := ⌊q⌋
  let r := q - (f : ℚ)
  if r < 1/2 then f
  else if 1/2 < r then f + 1
  else if f % 2 = 0 then f else f + 1

/-- Model of the Python format `f"{q:.1f}"`: sign, integer part, point, one
digit after the point, the magnitude rounded to the nearest tenth with ties to
even. -/
def fmt1 (q : ℚ) : String :=
  let n := (rhe (|q| * 10)).toNat
  String.mk ((if q < 0 then ['-'] else []) ++ decChars (n / 10) ++ ['.'] ++ decChars (n % 10))

/-- Badge record built by `generate_badge` (source lines 19-24). -/
structure Badge where
  schemaVersion : ℕ
  label : String
  message : String
  color : String
deriving DecidableEq, Repr

/-- JSON values occurring in a badge: an integer or a string.  The strings a
badge holds contain no characters that JSON serialization would escape. -/
inductive JVal where
  | jnum (n : ℕ)
  | jstr (s : String)
deriving DecidableEq, Repr

/-- Serialization of a single JSON value, as Python's `json` module prints it. -/
def JVal.render : JVal → String
  | .jnum n => String.mk (decChars n)
  | .jstr s => "\"" ++ s ++ "\""

/-- One `"key": value` entry of a JSON object. -/
def renderEntry (p : String × JVal) : String := "\"" ++ p.1 ++ "\": " ++ p.2.render

/-- Model of `json.dumps(obj)` on an object with the given entries, in
insertion order, with Python's default separators. -/
def compactJson (ps : List (String × JVal)) : String :=
  "\x7b" ++ String.intercalate ", " (ps.map renderEntry) ++ "\x7d"

/-- Model of `json.dump(obj, f, indent=2)` on an object with the given
entries, in insertion order. -/
def prettyJson (ps : List (String × JVal)) : String :=
  "\x7b\n" ++ String.intercalate ",\n" (ps.map (fun p => "  " ++ renderEntry p)) ++ "\n\x7d"

/-- The badge dict's entries in insertion order (source lines 19-24). -/
def badgePairs (b : Badge) : List (String × JVal) :=
  [("schemaVersion", JVal.jnum b.schemaVersion), ("label", JVal.jstr b.label),
   ("message", JVal.jstr b.message), ("color", JVal.jstr b.color)]

/-- Color selection of `generate_badge` (source lines 13-17): `color` starts
as `"red"` and is replaced by the `if coverage >= 80` / `elif coverage >= 50`
chain. -/
def colorFor (coverage : ℚ) : String :=
  let color := "red"
  if coverage ≥ 80 then "brightgreen"
  else if coverage ≥ 50 then "yellow"
  else color

/-- Badge built from a parsed `line-rate` (source lines 10-24):
`coverage = line_rate * 100`, message `f"{coverage:.1f}%"`, color by
threshold. -/
def mkBadge (line_rate : ℚ) : Badge :=
  let coverage := line_rate * 100
  { schemaVersion := 1, label := "coverage",
    message := fmt1 coverage ++ "%", color := colorFor coverage }

/-- Outcome of the output-file write (`with open(output_path, "w") as f:
json.dump(badge, f, indent=2)`).  `open(path, "w")` truncates the file as soon
as it succeeds, so a dump that raises after `n` characters leaves the first
`n` characters of the serialization; `openFail` models `open` itself raising,
which leaves the path untouched. -/
inductive WriteOutcome where
  | ok : WriteOutcome
  | openFail (msg : String) : WriteOutcome
  | failAfter (n : ℕ) (msg : String) : WriteOutcome
deriving DecidableEq, Repr

/-- Environment of one invocation of `generate_badge`: the outcome of
`ET.parse(report_path)` / `tree.getroot()` (an error message, or the root
element's attributes), and the outcome of the output write. -/
structure Env where
  parseResult : Except String (List (String × String))
  writeOutcome : WriteOutcome

/-- Observable result of one invocation: exit code, lines printed to stdout,
and the final content at the output path (`none` when the path was never
opened, so whatever was there before is untouched). -/
structure RunResult where
  exitCode : ℕ
  stdout : List String
  fileWritten : Option String
deriving DecidableEq, Repr

/-- First `n` characters of a string: the prefix a partial write leaves. -/
def strTake (s : String) (n : ℕ) : String := String.mk (s.data.take n)

/-- Write-and-report phase of `generate_badge` (source lines 26-29), and the
`except` clause (lines 31-33) for failures arising there. -/
def writePhase (b : Badge) (w : WriteOutcome) : RunResult :=
  let content := prettyJson (badgePairs b)
  match w with
  | .ok => ⟨0, ["Generated badge: " ++ compactJson (badgePairs b)], some content⟩
  | .openFail m => ⟨1, ["Error generating badge: " ++ m], none⟩
  | .failAfter n m => ⟨1, ["Error generating badge: " ++ m], some (strTake content n)⟩

/-- Embedding of `generate_badge` (source lines 6-33).  The `try` body parses
the report, reads `root.attrib.get("line-rate", 0)`, converts it with
`float`, builds the badge and writes it; any failure reaches the `except`
clause, which prints `Error generating badge: ...` and exits with status 1.
Python's `ValueError` text for a failed conversion contains the offending
string. -/
def generate_badge : Env → RunResult
  | ⟨.error e, _⟩ => ⟨1, ["Error generating badge: " ++ e], none⟩
  | ⟨.ok attrs, w⟩ =>
    match attrs.lookup "line-rate" with
    | some s =>
      match floatOfString s with
      | none => ⟨1, ["Error generating badge: could not convert string to float: " ++ s], none⟩
      | some lr => writePhase (mkBadge lr) w
    | none => writePhase (mkBadge 0) w

/-- The error text the `except` clause would print for `env`, when the `try`
body fails before the write phase (parse failure or float conversion
failure); `none` when parsing and conversion both succeed. -/
def parseErrText : Env → Option String
  | ⟨.error e, _⟩ => some e
  | ⟨.ok attrs, _⟩ =>
    match attrs.lookup "line-rate" with
    | none => none
    | some s =>
      if (floatOfString s).isNone then some ("could not convert string to float: " ++ s)
      else none

/-- Value of `float(root.attrib.get("line-rate", 0))` when it succeeds:
the default 0 when the attribute is absent, otherwise the parsed float. -/
def attrRate (attrs : List (String × String)) : Option ℚ :=
  match attrs.lookup "line-rate" with
  | none => some 0
  | some s => floatOfString s

/-- Content of the output path after running `generate_badge env` on a file
system where the output path previously held `prior`. -/
def fileAfterRun (env : Env) (prior : Option String) : Option String :=
  match (generate_badge env).fileWritten with
  | none => prior
  | some c => some c

/-- Checker for the regular expression `^\d+\.\d%$`. -/
def matchesMsgPattern (s : String) : Bool :=
  match s.toList.reverse with
  | c1 :: c2 :: c3 :: rest =>
    c1 == '%' && c2.isDigit && c3 == '.' && !rest.isEmpty && rest.all Char.isDigit
  | _ => false

/-- Observable events a verification script performs: printing a line,
saving a screenshot to a path, and closing the browser. -/
inductive Ev where
  | print (s : String)
  | shot (path : String)
  | close
deriving DecidableEq, Repr

/-- Whether an event is `Ev.close`. -/
def isClose : Ev → Bool
  | .close => true
  | _ => false

/-- Whether an event is a screenshot. -/
def isShot : Ev → Bool
  | .shot _ => true
  | _ => false

/-- Number of `browser.close()` calls in a trace. -/
def closes (t : List Ev) : ℕ := t.countP isClose

/-- Number of screenshots in a trace. -/
def shots (t : List Ev) : ℕ := t.countP isShot

/-- Which fallible browser operation (numbered in source order) raises first,
if any, and the exception's message. -/
def failsAt (w : Option (ℕ × String)) (k : ℕ) : Option String :=
  match w with
  | some (j, m) => if j = k then some m else none
  | none => none

/-- World of one run of `verify_event_form.py`: the first raising operation
(1 `goto /create`, 2 `goto /app/create`, 3 `expect(...).to_be_focused()`,
4 `get_attribute("title")`, 5 `fill`, 6 `press`, 7 `wait_for_timeout` and the
`.count()` probes, 8 `page.screenshot`), the submit button's `title`
attribute, the number and first text of `.text-red` elements, and the number
of `Saving...` texts. -/
structure FormWorld where
  failAt : Option (ℕ × String)
  titleAttr : Option String
  errorCount : ℕ
  errorTextFirst : String
  savingCount : ℕ

/-- Events of the `try` body of `verify_event_form.py` (source lines 8-57)
and, when a step raises, the exception's message. -/
def formBody (w : FormWorld) : List Ev × Option String :=
  match failsAt w.failAt 1 with
  | some m => ([], some m)
  | none =>
  match failsAt w.failAt 2 with
  | some m => ([], some m)
  | none =>
  let evs := [Ev.print "Checking autofocus..."]
  match failsAt w.failAt 3 with
  | some m => (evs, some m)
  | none =>
  let evs := evs ++ [Ev.print "SUCCESS: Title input is focused.",
    Ev.print "Checking submit button title..."]
  match failsAt w.failAt 4 with
  | some m => (evs, some m)
  | none =>
  let evs := evs ++ [Ev.print (if w.titleAttr = some "Save (Ctrl+Enter)" then
      "SUCCESS: Submit button has correct title."
    else
      "FAILURE: Title is " ++ (match w.titleAttr with | some t => t | none => "None"))]
  let evs := evs ++ [Ev.print "Testing Ctrl+Enter shortcut..."]
  match failsAt w.failAt 5 with
  | some m => (evs, some m)
  | none =>
  match failsAt w.failAt 6 with
  | some m => (evs, some m)
  | none =>
  match failsAt w.failAt 7 with
  | some m => (evs, some m)
  | none =>
  let evs := evs ++ [Ev.print (if w.errorCount > 0 then
      "SUCCESS: Form submitted (Error shown: " ++ w.errorTextFirst ++ ")"
    else if w.savingCount > 0 then "SUCCESS: Form submitted (Loading state visible)"
    else
      "WARNING: Neither error nor loading state visible. Maybe submission failed silently or too fast.")]
  match failsAt w.failAt 8 with
  | some m => (evs, some m)
  | none =>
  (evs ++ [Ev.shot "verification/verification.png",
    Ev.print "Screenshot saved to verification/verification.png"], none)

/-- Embedding of `run` in `verify_event_form.py`: the pre-`try` print, the
`try` body, the `except` clause (print `ERROR: ...` then screenshot
`verification/error.png`), and the `finally` clause closing the browser. -/
def runForm (w : FormWorld) : List Ev :=
  let body := formBody w
  [Ev.print "Navigating to create page..."] ++ body.1 ++
    (match body.2 with
     | some m => [Ev.print ("ERROR: " ++ m), Ev.shot "verification/error.png"]
     | none => []) ++ [Ev.close]

/-- First index at which `pat` occurs in `hay` (model of Python `str.find`,
with `none` for `-1`). -/
def firstIdx (hay pat : List Char) : Option ℕ :=
  match hay with
  | [] => if pat = [] then some 0 else none
  | _ :: t => if pat.isPrefixOf hay then some 0 else (firstIdx t pat).map (· + 1)

/-- World of one run of `verify_event_list.py`: the first raising operation
(1 `goto`, 2 `wait_for_load_state`, 3-5 the `is_visible` probes,
6 `page.content()`, 7 `page.screenshot`), the three visibility observations,
and the page content string. -/
structure ListWorld where
  failAt : Option (ℕ × String)
  headingVisible : Bool
  teamVisible : Bool
  todayVisible : Bool
  content : String

/-- Events of the `try` body of `verify_event_list.py` (source lines 7-44)
and, when a step raises, the exception's message. -/
def listBody (w : ListWorld) : List Ev × Option String :=
  let evs := [Ev.print "Navigating to http://localhost:3000/app"]
  match failsAt w.failAt 1 with
  | some m => (evs, some m)
  | none =>
  let evs := evs ++ [Ev.print "Waiting for page load..."]
  match failsAt w.failAt 2 with
  | some m => (evs, some m)
  | none =>
  match failsAt w.failAt 3 with
  | some m => (evs, some m)
  | none =>
  let evs := evs ++ [Ev.print (if w.headingVisible then "Calendar heading found."
    else "Calendar heading NOT found.")]
  match failsAt w.failAt 4 with
  | some m => (evs, some m)
  | none =>
  let evs := evs ++ [Ev.print (if w.teamVisible then "Event 'Team Meeting' found."
    else "Event 'Team Meeting' NOT found.")]
  match failsAt w.failAt 5 with
  | some m => (evs, some m)
  | none =>
  let evs := evs ++ [Ev.print (if w.todayVisible then "Group header 'Today' found."
    else "Group header 'Today' NOT found.")]
  match failsAt w.failAt 6 with
  | some m => (evs, some m)
  | none =>
  let ti := firstIdx w.content.toList "Today".toList
  let mi := firstIdx w.content.toList "Tomorrow".toList
  let sorted := match ti, mi with
    | some a, some b => decide (a < b)
    | _, _ => false
  let evs := evs ++ [Ev.print (if sorted then "Events are correctly sorted (Today before Tomorrow)."
    else "Events sorting issue or not found.")]
  let evs := evs ++ [Ev.print "Taking screenshot..."]
  match failsAt w.failAt 7 with
  | some m => (evs, some m)
  | none =>
  (evs ++ [Ev.shot "verification/event_list.png",
    Ev.print "Screenshot saved to verification/event_list.png"], none)

/-- Embedding of `run` in `verify_event_list.py`: the `try` body, the
`except` clause (print `Error: ...` only, no screenshot), and the `finally`
clause closing the browser. -/
def runList (w : ListWorld) : List Ev :=
  let body := listBody w
  body.1 ++
    (match body.2 with
     | some m => [Ev.print ("Error: " ++ m)]
     | none => []) ++ [Ev.close]

/-! ### Helper lemmas -/

theorem isShot_print (s : String) : isShot (Ev.print s) = false := rfl

theorem isShot_shot (p : String) : isShot (Ev.shot p) = true := rfl

theorem isShot_close : isShot Ev.close = false := rfl

theorem isClose_print (s : String) : isClose (Ev.print s) = false := rfl

theorem isClose_shot (p : String) : isClose (Ev.shot p) = false := rfl

theorem isClose_close : isClose Ev.close = true := rfl

theorem closes_nil : closes [] = 0 := rfl

theorem closes_append (a b : List Ev) : closes (a ++ b) = closes a + closes b :=
  List.countP_append _ _ _

theorem closes_print_cons (s : String) (t : List Ev) : closes (Ev.print s :: t) = closes t := by
  simp [closes, List.countP_cons, isClose_print]

theorem closes_shot_cons (p : String) (t : List Ev) : closes (Ev.shot p :: t) = closes t := by
  simp [closes, List.countP_cons, isClose_shot]

theorem closes_close_cons (t : List Ev) : closes (Ev.close :: t) = closes t + 1 := by
  simp [closes, List.countP_cons, isClose_close]

theorem shots_nil : shots [] = 0 := rfl

theorem shots_append (a b : List Ev) : shots (a ++ b) = shots a + shots b :=
  List.countP_append _ _ _

theorem shots_print_cons (s : String) (t : List Ev) : shots (Ev.print s :: t) = shots t := by
  simp [shots, List.countP_cons, isShot_print]

theorem shots_shot_cons (p : String) (t : List Ev) : shots (Ev.shot p :: t) = shots t + 1 := by
  simp [shots, List.countP_cons, isShot_shot]

theorem shots_close_cons (t : List Ev) : shots (Ev.close :: t) = shots t := by
  simp [shots, List.countP_cons, isShot_close]

theorem digitChar_isDigit {d : ℕ} (h : d < 10) : (digitChar d).isDigit = true := by
  interval_cases d <;> decide

theorem decCharsAux_congr : ∀ (f1 f2 n : ℕ), n < f1 → n < f2 →
    decCharsAux f1 n = decCharsAux f2 n := by
  intro f1
  induction f1 with
  | zero => omega
  | succ f ih =>
    intro f2 n h1 h2
    cases f2 with
    | zero => omega
    | succ g =>
      simp only [decCharsAux]
      by_cases hn : n < 10
      · rw [if_pos hn, if_pos hn]
      · rw [if_neg hn, if_neg hn]
        have hd : n / 10 < n := Nat.div_lt_self (by omega) (by norm_num)
        rw [ih g (n / 10) (by omega) (by omega)]

/-- The recursive unfolding of `decChars`. -/
theorem decChars_eq (n : ℕ) : decChars n =
    if n < 10 then [digitChar n] else decChars (n / 10) ++ [digitChar (n % 10)] := by
  show decCharsAux (n + 1) n = _
  simp only [decCharsAux]
  by_cases hn : n < 10
  · rw [if_pos hn, if_pos hn]
  · rw [if_neg hn, if_neg hn]
    have hd : n / 10 < n := Nat.div_lt_self (by omega) (by norm_num)
    rw [decCharsAux_congr n (n / 10 + 1) (n / 10) hd (Nat.lt_succ_self _)]
    rfl

theorem decChars_ne_nil (n : ℕ) : decChars n ≠ [] := by
  rw [decChars_eq]
  split <;> simp

theorem decChars_all_digits (n : ℕ) : ∀ c ∈ decChars n, c.isDigit = true := by
  induction n using Nat.strong_induction_on with
  | _ n ih =>
    rw [decChars_eq]
    split
    · next h =>
      intro c hc
      simp only [List.mem_singleton] at hc
      subst hc
      exact digitChar_isDigit h
    · next h =>
      intro c hc
      rw [List.mem_append] at hc
      rcases hc with hc | hc
      · exact ih (n / 10) (Nat.div_lt_self (by omega) (by norm_num)) c hc
      · simp only [List.mem_singleton] at hc
        subst hc
        exact digitChar_isDigit (Nat.mod_lt _ (by norm_num))

theorem decChars_single {n : ℕ} (h : n < 10) : decChars n = [digitChar n] := by
  rw [decChars_eq]
  simp [h]

/-- The color selection, characterized by the spec's three tiers. -/
theorem colorFor_spec (c : ℚ) :
    (colorFor c = "brightgreen" ↔ 80 ≤ c) ∧
    (colorFor c = "yellow" ↔ 50 ≤ c ∧ c < 80) ∧
    (colorFor c = "red" ↔ c < 50) := by
  simp only [colorFor]
  by_cases h1 : (80 : ℚ) ≤ c
  · rw [if_pos h1]
    exact ⟨iff_of_true rfl h1,
      iff_of_false (by decide) (fun h => by linarith [h.2]),
      iff_of_false (by decide) (fun h => by linarith)⟩
  · rw [if_neg h1]
    by_cases h2 : (50 : ℚ) ≤ c
    · rw [if_pos h2]
      exact ⟨iff_of_false (by decide) h1,
        iff_of_true rfl ⟨h2, not_le.mp h1⟩,
        iff_of_false (by decide) (fun h => by linarith)⟩
    · rw [if_neg h2]
      exact ⟨iff_of_false (by decide) h1,
        iff_of_false (by decide) (fun h => h2 h.1),
        iff_of_true rfl (by linarith [not_le.mp h2])⟩

theorem mkBadge_color (lr : ℚ) : (mkBadge lr).color = colorFor (lr * 100) := rfl

theorem mkBadge_message (lr : ℚ) : (mkBadge lr).message = fmt1 (lr * 100) ++ "%" := rfl

theorem rhe_natCast (k : ℕ) : rhe (k : ℚ) = (k : ℤ) := by
  simp only [rhe]
  rw [Int.floor_natCast]
  rw [if_pos]
  push_cast
  norm_num

/-- Evaluation of the one-decimal format at a nonnegative multiple of one
tenth. -/
theorem fmt1_nonneg_tenths (k : ℕ) :
    fmt1 ((k : ℚ) / 10) = String.mk (decChars (k / 10) ++ ['.'] ++ decChars (k % 10)) := by
  have h0 : (0 : ℚ) ≤ (k : ℚ) / 10 := by positivity
  simp only [fmt1]
  rw [abs_of_nonneg h0, if_neg (not_lt.mpr h0)]
  rw [show (k : ℚ) / 10 * 10 = (k : ℚ) by ring]
  rw [rhe_natCast]
  simp

/-- Evaluation of the one-decimal format at a negative multiple of one
tenth. -/
theorem fmt1_neg_tenths (k : ℕ) (hk : 0 < k) :
    fmt1 (-((k : ℚ) / 10)) =
      String.mk ('-' :: (decChars (k / 10) ++ ['.'] ++ decChars (k % 10))) := by
  have hpos : (0 : ℚ) < (k : ℚ) / 10 := by
    apply div_pos _ (by norm_num)
    exact_mod_cast hk
  simp only [fmt1]
  rw [abs_neg, abs_of_nonneg (le_of_lt hpos), if_pos (neg_lt_zero.mpr hpos)]
  rw [show (k : ℚ) / 10 * 10 = (k : ℚ) by ring]
  rw [rhe_natCast]
  simp

theorem rhe_nonneg (q : ℚ) (h : 0 ≤ q) : 0 ≤ rhe q := by
  have hf : (0 : ℤ) ≤ ⌊q⌋ := Int.floor_nonneg.mpr h
  simp only [rhe]
  split_ifs <;> omega

/-- Rounding to the nearest integer with ties to even is off by at most one
half. -/
theorem abs_sub_rhe (q : ℚ) : |q - (rhe q : ℚ)| ≤ 1 / 2 := by
  have h0 : (0 : ℚ) ≤ q - ⌊q⌋ := by
    have := Int.floor_le q
    linarith
  have h1 : q - ⌊q⌋ < 1 := by
    have := Int.lt_floor_add_one q
    linarith
  simp only [rhe]
  split_ifs with ha hb hc
  · rw [abs_of_nonneg h0]
    linarith
  · rw [abs_le]
    push_cast
    constructor <;> linarith
  · rw [abs_le]
    constructor <;> linarith
  · rw [abs_le]
    push_cast
    constructor <;> linarith

theorem mkBadge_message_eval_pos (lr : ℚ) (k : ℕ) (h : lr * 100 = (k : ℚ) / 10) :
    (mkBadge lr).message = String.mk (decChars (k / 10) ++ ['.'] ++ decChars (k % 10)) ++ "%" := by
  rw [mkBadge_message, h, fmt1_nonneg_tenths]

theorem mkBadge_message_eval_neg (lr : ℚ) (k : ℕ) (hk : 0 < k)
    (h : lr * 100 = -((k : ℚ) / 10)) :
    (mkBadge lr).message =
      String.mk ('-' :: (decChars (k / 10) ++ ['.'] ++ decChars (k % 10))) ++ "%" := by
  rw [mkBadge_message, h, fmt1_neg_tenths k hk]

theorem mkBadge_color_ge80 (lr : ℚ) (h : 80 ≤ lr * 100) :
    (mkBadge lr).color = "brightgreen" := by
  rw [mkBadge_color]
  exact (colorFor_spec _).1.mpr h

theorem mkBadge_color_mid (lr : ℚ) (h1 : 50 ≤ lr * 100) (h2 : lr * 100 < 80) :
    (mkBadge lr).color = "yellow" := by
  rw [mkBadge_color]
  exact (colorFor_spec _).2.1.mpr ⟨h1, h2⟩

theorem mkBadge_color_low (lr : ℚ) (h : lr * 100 < 50) :
    (mkBadge lr).color = "red" := by
  rw [mkBadge_color]
  exact (colorFor_spec _).2.2.mpr h

/-- A run whose parse, conversion and write all succeed, stated through the
badge's computed message and color. -/
theorem generate_badge_ok (attrs : List (String × String)) (s : String) (lr : ℚ)
    (hl : attrs.lookup "line-rate" = some s) (hf : floatOfString s = some lr)
    (msg col : String) (hm : (mkBadge lr).message = msg) (hc : (mkBadge lr).color = col) :
    generate_badge ⟨.ok attrs, .ok⟩ =
      ⟨0, ["Generated badge: " ++ compactJson (badgePairs ⟨1, "coverage", msg, col⟩)],
        some (prettyJson (badgePairs ⟨1, "coverage", msg, col⟩))⟩ := by
  have hb : mkBadge lr = ⟨1, "coverage", msg, col⟩ := by
    rw [← hm, ← hc]
    rfl
  simp only [generate_badge, hl, hf, hb]
  rfl

/-! ### Claims -/

/-- C1: for every successfully parsed report the badge color is selected by
inclusive lower-bound thresholds on `coverage = line_rate * 100`, in order:
`coverage >= 80` gives brightgreen, else `coverage >= 50` gives yellow, else
red; coverage exactly 80 is brightgreen and exactly 50 is yellow. -/
theorem C1_color_thresholds (lr : ℚ) :
    ((mkBadge lr).color = "brightgreen" ↔ 80 ≤ lr * 100) ∧
    ((mkBadge lr).color = "yellow" ↔ 50 ≤ lr * 100 ∧ lr * 100 < 80) ∧
    ((mkBadge lr).color = "red" ↔ lr * 100 < 50) ∧
    (mkBadge (80 / 100)).color = "brightgreen" ∧
    (mkBadge (50 / 100)).color = "yellow" := by
  rw [mkBadge_color]
  refine ⟨(colorFor_spec _).1, (colorFor_spec _).2.1, (colorFor_spec _).2.2, ?_, ?_⟩
  · rw [mkBadge_color, show (80 / 100 : ℚ) * 100 = 80 by norm_num]
    exact (colorFor_spec 80).1.mpr le_rfl
  · rw [mkBadge_color, show (50 / 100 : ℚ) * 100 = 50 by norm_num]
    exact (colorFor_spec 50).2.1.mpr ⟨le_rfl, by norm_num⟩

/-- C2: when the root element has no `line-rate` attribute, the generator
succeeds treating the rate as 0: exit code 0, color red, message `0.0%`. -/
theorem C2_missing_attr_defaults (attrs : List (String × String))
    (h : attrs.lookup "line-rate" = none) :
    generate_badge ⟨.ok attrs, .ok⟩ =
      ⟨0, ["Generated badge: " ++ compactJson (badgePairs (mkBadge 0))],
        some (prettyJson (badgePairs (mkBadge 0)))⟩ ∧
    (mkBadge 0).color = "red" ∧ (mkBadge 0).message = "0.0%" := by
  refine ⟨?_, ?_, ?_⟩
  · simp only [generate_badge]
    rw [h]
    rfl
  · rw [mkBadge_color, show (0 : ℚ) * 100 = 0 by norm_num]
    exact (colorFor_spec 0).2.2.mpr (by norm_num)
  · rw [mkBadge_message, show (0 : ℚ) * 100 = ((0 : ℕ) : ℚ) / 10 by norm_num,
      fmt1_nonneg_tenths]
    decide

/-- Witness for C2 at a report whose root carries only a `branch-rate`. -/
theorem C2_missing_attr_defaults_witness :
    generate_badge ⟨.ok [("branch-rate", "0.87")], .ok⟩ =
      ⟨0, ["Generated badge: " ++ compactJson (badgePairs (mkBadge 0))],
        some (prettyJson (badgePairs (mkBadge 0)))⟩ ∧
    (mkBadge 0).color = "red" ∧ (mkBadge 0).message = "0.0%" :=
  C2_missing_attr_defaults [("branch-rate", "0.87")] (by decide)

/-- C4: the computed coverage is `line_rate * 100` with no clamping: the
message and the color selection see it unchanged, and for line-rates 2.0 and
-1.0 the full run passes 200.0% and -100.0% through to the printed badge. -/
theorem C4_no_clamping (lr : ℚ) :
    (mkBadge lr).message = fmt1 (lr * 100) ++ "%" ∧
    (mkBadge lr).color = colorFor (lr * 100) ∧
    (generate_badge ⟨.ok [("line-rate", "2.0")], .ok⟩).stdout =
      ["Generated badge: \x7b\"schemaVersion\": 1, \"label\": \"coverage\", \"message\": \"200.0%\", \"color\": \"brightgreen\"\x7d"] ∧
    (generate_badge ⟨.ok [("line-rate", "-1.0")], .ok⟩).stdout =
      ["Generated badge: \x7b\"schemaVersion\": 1, \"label\": \"coverage\", \"message\": \"-100.0%\", \"color\": \"red\"\x7d"] := by
  refine ⟨mkBadge_message lr, mkBadge_color lr, ?_, ?_⟩
  · have hf : floatOfString "2.0" = some 2 := by
      rw [show floatOfString "2.0" = some (decOfParts ['2'] ['0']) from rfl]
      rw [show decOfParts ['2'] ['0'] = 2 from by
        rw [decOfParts, show digitsToNat ['2'] = 2 from rfl,
          show digitsToNat ['0'] = 0 from rfl]
        norm_num]
    rw [generate_badge_ok [("line-rate", "2.0")] "2.0" 2 (by decide) hf "200.0%" "brightgreen"
      (by rw [mkBadge_message_eval_pos 2 2000 (by norm_num)]; decide)
      (mkBadge_color_ge80 2 (by norm_num))]
    decide
  · have hf : floatOfString "-1.0" = some (-1) := by
      rw [show floatOfString "-1.0" = some (-(decOfParts ['1'] ['0'])) from rfl]
      rw [show decOfParts ['1'] ['0'] = 1 from by
        rw [decOfParts, show digitsToNat ['1'] = 1 from rfl,
          show digitsToNat ['0'] = 0 from rfl]
        norm_num]
    rw [generate_badge_ok [("line-rate", "-1.0")] "-1.0" (-1) (by decide) hf "-100.0%" "red"
      (by rw [mkBadge_message_eval_neg (-1) 1000 (by norm_num) (by norm_num)]; decide)
      (mkBadge_color_low (-1) (by norm_num))]
    decide

/-- C5: whenever parsing fails (unreadable file, malformed structure, or a
non-numeric `line-rate` value), the run prints one diagnostic line containing
the error text, exits with status 1, and leaves the output path untouched. -/
theorem C5_parse_failure (env : Env) (e : String) (h : parseErrText env = some e) :
    generate_badge env = ⟨1, ["Error generating badge: " ++ e], none⟩ := by
  obtain ⟨p, w⟩ := env
  cases p with
  | error e2 =>
    simp only [parseErrText] at h
    cases h
    rfl
  | ok attrs =>
    simp only [parseErrText] at h
    cases hl : attrs.lookup "line-rate" with
    | none =>
      simp [hl] at h
    | some s =>
      simp only [hl] at h
      cases hf : floatOfString s with
      | some lr =>
        simp [hf] at h
      | none =>
        simp only [hf, Option.isNone_none, if_true] at h
        cases h
        simp only [generate_badge, hl, hf]
        rfl

/-- Witness for C5: the report file is missing. -/
theorem C5_parse_failure_witness :
    generate_badge ⟨.error "No such file or directory", .ok⟩ =
      ⟨1, ["Error generating badge: No such file or directory"], none⟩ :=
  C5_parse_failure ⟨.error "No such file or directory", .ok⟩ "No such file or directory" rfl

/-- C6 counterexample: parsing succeeds for `line-rate="0.9"` but the dump
raises after three characters were written; the run fails (exit 1) yet the
output file is left truncated to the partial content, against the claim that
no failing invocation creates, truncates or partially writes the file. -/
theorem C6_partial_output_counterexample :
    (generate_badge ⟨.ok [("line-rate", "0.9")],
      .failAfter 3 "No space left on device"⟩).exitCode = 1 ∧
    (generate_badge ⟨.ok [("line-rate", "0.9")],
      .failAfter 3 "No space left on device"⟩).fileWritten = some "\x7b\n " :=
  ⟨rfl, rfl⟩

/-- C6 amended: every failing invocation prints one diagnostic line and exits
with status 1; failures before the output file is opened (parse, conversion,
open) leave the output path untouched, but a failure while the badge is being
written leaves the file holding a prefix of the serialized badge. -/
theorem C6_failure_outcome (env : Env) (h : (generate_badge env).exitCode = 1) :
    (∃ m, (generate_badge env).stdout = ["Error generating badge: " ++ m]) ∧
    ((generate_badge env).fileWritten = none ∨
      ∃ n m b, env.writeOutcome = .failAfter n m ∧
        (generate_badge env).fileWritten = some (strTake (prettyJson (badgePairs b)) n)) := by
  obtain ⟨p, w⟩ := env
  cases p with
  | error e => exact ⟨⟨e, rfl⟩, .inl rfl⟩
  | ok attrs =>
    cases hl : attrs.lookup "line-rate" with
    | some s =>
      cases hf : floatOfString s with
      | none =>
        simp only [generate_badge, hl, hf]
        exact ⟨⟨"could not convert string to float: " ++ s, rfl⟩, .inl trivial⟩
      | some lr =>
        cases w with
        | ok => simp [generate_badge, writePhase, hl, hf] at h
        | openFail m =>
          simp only [generate_badge, writePhase, hl, hf]
          exact ⟨⟨m, rfl⟩, .inl trivial⟩
        | failAfter n m =>
          simp only [generate_badge, writePhase, hl, hf]
          exact ⟨⟨m, rfl⟩, .inr ⟨n, m, mkBadge lr, rfl, rfl⟩⟩
    | none =>
      cases w with
      | ok => simp [generate_badge, writePhase, hl] at h
      | openFail m =>
        simp only [generate_badge, writePhase, hl]
        exact ⟨⟨m, rfl⟩, .inl trivial⟩
      | failAfter n m =>
        simp only [generate_badge, writePhase, hl]
        exact ⟨⟨m, rfl⟩, .inr ⟨n, m, mkBadge 0, rfl, rfl⟩⟩

/-- Witness for the amended C6: a run that fails because the report file is
unreadable. -/
theorem C6_failure_outcome_witness :
    (∃ m, (generate_badge ⟨.error "Permission denied", .ok⟩).stdout =
      ["Error generating badge: " ++ m]) ∧
    ((generate_badge ⟨.error "Permission denied", .ok⟩).fileWritten = none ∨
      ∃ n m b, (⟨Except.error "Permission denied", WriteOutcome.ok⟩ : Env).writeOutcome =
          .failAfter n m ∧
        (generate_badge ⟨.error "Permission denied", .ok⟩).fileWritten =
          some (strTake (prettyJson (badgePairs b)) n)) :=
  C6_failure_outcome ⟨.error "Permission denied", .ok⟩ rfl

/-- C7: a successful run writes the pretty-printed (indent 2) serialization
of an object holding exactly the four keys `schemaVersion` (integer 1),
`label` (`"coverage"`), `message` and `color` in that order, and prints one
confirmation line holding the compact serialization of the same badge; the
two serializations are shown in full for the badge of line-rate 0.873. -/
theorem C7_output_shape (attrs : List (String × String)) (lr : ℚ)
    (hr : attrRate attrs = some lr) :
    generate_badge ⟨.ok attrs, .ok⟩ =
      ⟨0, ["Generated badge: " ++ compactJson (badgePairs (mkBadge lr))],
        some (prettyJson (badgePairs (mkBadge lr)))⟩ ∧
    (badgePairs (mkBadge lr)).map Prod.fst =
      ["schemaVersion", "label", "message", "color"] ∧
    (mkBadge lr).schemaVersion = 1 ∧ (mkBadge lr).label = "coverage" ∧
    prettyJson (badgePairs ⟨1, "coverage", "87.3%", "brightgreen"⟩) =
      "\x7b\n  \"schemaVersion\": 1,\n  \"label\": \"coverage\",\n  \"message\": \"87.3%\",\n  \"color\": \"brightgreen\"\n\x7d" ∧
    compactJson (badgePairs ⟨1, "coverage", "87.3%", "brightgreen"⟩) =
      "\x7b\"schemaVersion\": 1, \"label\": \"coverage\", \"message\": \"87.3%\", \"color\": \"brightgreen\"\x7d" := by
  refine ⟨?_, rfl, rfl, rfl, by decide, by decide⟩
  simp only [attrRate] at hr
  cases hl : attrs.lookup "line-rate" with
  | none =>
    simp only [hl, Option.some.injEq] at hr
    subst hr
    simp only [generate_badge, hl]
    rfl
  | some s =>
    simp only [hl] at hr
    simp only [generate_badge, hl, hr]
    rfl

/-- Witness for C7 at the spec's concrete scenario `line-rate="0.873"`. -/
theorem C7_output_shape_witness :
    generate_badge ⟨.ok [("line-rate", "0.873")], .ok⟩ =
      ⟨0, ["Generated badge: " ++ compactJson (badgePairs (mkBadge (873 / 1000)))],
        some (prettyJson (badgePairs (mkBadge (873 / 1000))))⟩ ∧
    (badgePairs (mkBadge (873 / 1000))).map Prod.fst =
      ["schemaVersion", "label", "message", "color"] ∧
    (mkBadge (873 / 1000)).schemaVersion = 1 ∧ (mkBadge (873 / 1000)).label = "coverage" ∧
    prettyJson (badgePairs ⟨1, "coverage", "87.3%", "brightgreen"⟩) =
      "\x7b\n  \"schemaVersion\": 1,\n  \"label\": \"coverage\",\n  \"message\": \"87.3%\",\n  \"color\": \"brightgreen\"\n\x7d" ∧
    compactJson (badgePairs ⟨1, "coverage", "87.3%", "brightgreen"⟩) =
      "\x7b\"schemaVersion\": 1, \"label\": \"coverage\", \"message\": \"87.3%\", \"color\": \"brightgreen\"\x7d" :=
  C7_output_shape [("line-rate", "0.873")] (873 / 1000) (by
    show attrRate [("line-rate", "0.873")] = some (873 / 1000)
    rw [show attrRate [("line-rate", "0.873")] = some (decOfParts ['0'] ['8', '7', '3']) from rfl]
    rw [show decOfParts ['0'] ['8', '7', '3'] = 873 / 1000 from by
      rw [decOfParts, show digitsToNat ['0'] = 0 from rfl,
        show digitsToNat ['8', '7', '3'] = 873 from rfl]
      norm_num])

/-- C8: generation is deterministic and idempotent: a successful run writes
content that depends only on the input, so a second run on the same input
writes byte-identical content and leaves the output file unchanged. -/
theorem C8_idempotent (env : Env) (prior : Option String)
    (h : (generate_badge env).exitCode = 0) :
    ∃ c, (generate_badge env).fileWritten = some c ∧
      fileAfterRun env prior = some c ∧
      fileAfterRun env (fileAfterRun env prior) = fileAfterRun env prior := by
  obtain ⟨c, hc⟩ : ∃ c, (generate_badge env).fileWritten = some c := by
    obtain ⟨p, w⟩ := env
    cases p with
    | error e => simp [generate_badge] at h
    | ok attrs =>
      cases hl : attrs.lookup "line-rate" with
      | some s =>
        cases hf : floatOfString s with
        | none => simp [generate_badge, hl, hf] at h
        | some lr =>
          cases w with
          | ok =>
            exact ⟨prettyJson (badgePairs (mkBadge lr)),
              by simp [generate_badge, writePhase, hl, hf]⟩
          | openFail m => simp [generate_badge, writePhase, hl, hf] at h
          | failAfter n m => simp [generate_badge, writePhase, hl, hf] at h
      | none =>
        cases w with
        | ok =>
          exact ⟨prettyJson (badgePairs (mkBadge 0)),
            by simp [generate_badge, writePhase, hl]⟩
        | openFail m => simp [generate_badge, writePhase, hl] at h
        | failAfter n m => simp [generate_badge, writePhase, hl] at h
  exact ⟨c, hc, by simp [fileAfterRun, hc], by simp [fileAfterRun, hc]⟩

/-- Witness for C8 at `line-rate="0.873"` over an initially absent output
file. -/
theorem C8_idempotent_witness :
    ∃ c, (generate_badge ⟨.ok [("line-rate", "0.873")], .ok⟩).fileWritten = some c ∧
      fileAfterRun ⟨.ok [("line-rate", "0.873")], .ok⟩ none = some c ∧
      fileAfterRun ⟨.ok [("line-rate", "0.873")], .ok⟩
          (fileAfterRun ⟨.ok [("line-rate", "0.873")], .ok⟩ none) =
        fileAfterRun ⟨.ok [("line-rate", "0.873")], .ok⟩ none :=
  C8_idempotent ⟨.ok [("line-rate", "0.873")], .ok⟩ none rfl

/-- C3 counterexample: `line-rate="-0.5"` parses as a float, the badge is
generated successfully, and its message is `-50.0%`, which does not match the
pattern `^\d+\.\d%$`. -/
theorem C3_pattern_counterexample :
    (generate_badge ⟨.ok [("line-rate", "-0.5")], .ok⟩).exitCode = 0 ∧
    floatOfString "-0.5" = some (-(1 / 2)) ∧
    (mkBadge (-(1 / 2))).message = "-50.0%" ∧
    matchesMsgPattern "-50.0%" = false := by
  refine ⟨rfl, ?_, ?_, by decide⟩
  · rw [show floatOfString "-0.5" = some (-(decOfParts ['0'] ['5'])) from rfl]
    rw [show decOfParts ['0'] ['5'] = 1 / 2 from by
      rw [decOfParts, show digitsToNat ['0'] = 0 from rfl,
        show digitsToNat ['5'] = 5 from rfl]
      norm_num]
  · rw [mkBadge_message_eval_neg (-(1 / 2)) 500 (by norm_num) (by norm_num)]
    decide

/-- C3 amended: the message is the coverage value rounded to the nearest
tenth (ties to even, never truncation) followed by a literal percent sign,
and for every nonnegative line-rate it matches `^\d+\.\d%$`; a negative
line-rate produces a leading minus sign that escapes the pattern. -/
theorem C3_message_format (lr : ℚ) (h : 0 ≤ lr) :
    matchesMsgPattern (mkBadge lr).message = true ∧
    ∃ n : ℕ, ((mkBadge lr).message).data =
        decChars (n / 10) ++ ['.'] ++ decChars (n % 10) ++ ['%'] ∧
      |lr * 100 - (n : ℚ) / 10| ≤ 1 / 20 := by
  have hc : (0 : ℚ) ≤ lr * 100 := mul_nonneg h (by norm_num)
  have h10 : (0 : ℚ) ≤ lr * 100 * 10 := mul_nonneg hc (by norm_num)
  set n := (rhe (lr * 100 * 10)).toNat with hndef
  have hfmt : fmt1 (lr * 100) =
      String.mk (decChars (n / 10) ++ ['.'] ++ decChars (n % 10)) := by
    simp only [fmt1]
    rw [abs_of_nonneg hc, if_neg (not_lt.mpr hc), ← hndef, List.nil_append]
  have hdata : ((mkBadge lr).message).data =
      decChars (n / 10) ++ ['.'] ++ decChars (n % 10) ++ ['%'] := by
    rw [mkBadge_message, hfmt, String.data_append]
  refine ⟨?_, n, hdata, ?_⟩
  · have hrev : ((mkBadge lr).message).toList.reverse =
        '%' :: digitChar (n % 10) :: '.' :: (decChars (n / 10)).reverse := by
      show ((mkBadge lr).message).data.reverse = _
      rw [hdata, decChars_single (Nat.mod_lt _ (by norm_num))]
      simp [List.reverse_append]
    simp only [matchesMsgPattern]
    rw [hrev]
    rw [Bool.and_eq_true, Bool.and_eq_true, Bool.and_eq_true, Bool.and_eq_true]
    refine ⟨⟨⟨⟨rfl, digitChar_isDigit (Nat.mod_lt _ (by norm_num))⟩, rfl⟩, ?_⟩, ?_⟩
    · simp [decChars_ne_nil]
    · rw [List.all_eq_true]
      intro c hcm
      exact decChars_all_digits _ c (List.mem_reverse.mp hcm)
  · have htn : ((n : ℤ) : ℚ) = ((rhe (lr * 100 * 10) : ℤ) : ℚ) := by
      exact_mod_cast congrArg (fun z : ℤ => (z : ℚ))
        (Int.toNat_of_nonneg (rhe_nonneg _ h10))
    have habs := abs_sub_rhe (lr * 100 * 10)
    have hstep : |lr * 100 - (n : ℚ) / 10| =
        |lr * 100 * 10 - ((rhe (lr * 100 * 10) : ℤ) : ℚ)| / 10 := by
      rw [show lr * 100 - (n : ℚ) / 10 = (lr * 100 * 10 - (n : ℚ)) / 10 from by ring,
        abs_div]
      norm_num
      rw [show ((n : ℕ) : ℚ) = ((n : ℤ) : ℚ) from by push_cast; rfl, htn]
    rw [hstep]
    linarith [habs]

/-- Witness for the amended C3 at the spec's scenario `line_rate = 0.873`. -/
theorem C3_message_format_witness :
    matchesMsgPattern (mkBadge (873 / 1000)).message = true ∧
    ∃ n : ℕ, ((mkBadge (873 / 1000)).message).data =
        decChars (n / 10) ++ ['.'] ++ decChars (n % 10) ++ ['%'] ∧
      |(873 : ℚ) / 1000 * 100 - (n : ℚ) / 10| ≤ 1 / 20 :=
  C3_message_format (873 / 1000) (by norm_num)

/-- The body of `verify_event_form.py` never closes the browser itself. -/
theorem formBody_closes (w : FormWorld) : closes (formBody w).1 = 0 := by
  unfold formBody
  repeat' split
  all_goals
    simp [closes_append, closes_print_cons, closes_shot_cons, closes_nil]

/-- The body of `verify_event_list.py` never closes the browser itself. -/
theorem listBody_closes (w : ListWorld) : closes (listBody w).1 = 0 := by
  unfold listBody
  repeat' split
  all_goals
    simp [closes_append, closes_print_cons, closes_shot_cons, closes_nil]

/-- The body of `verify_event_list.py` takes its screenshot exactly when it
runs to completion. -/
theorem listBody_char (w : ListWorld) :
    ((listBody w).2 = none ∧ shots (listBody w).1 = 1) ∨
    ((listBody w).2 ≠ none ∧ shots (listBody w).1 = 0) := by
  unfold listBody
  repeat' split
  all_goals
    simp [shots_append, shots_print_cons, shots_shot_cons, shots_nil]

/-- A raised body of `verify_event_list.py` has taken no screenshot. -/
theorem listBody_raised_shots (w : ListWorld) (e : String)
    (h : (listBody w).2 = some e) : shots (listBody w).1 = 0 := by
  rcases listBody_char w with ⟨h2, _⟩ | ⟨_, hs⟩
  · rw [h2] at h
    cases h
  · exact hs

/-- C9 counterexample: when the first navigation of `verify_event_list.py`
fails, the run prints the error and closes the browser but captures no
screenshot at all, against the claim that every verification script captures
a best-effort failure screenshot. -/
theorem C9_no_failure_screenshot_counterexample :
    runList ⟨some (1, "net::ERR_CONNECTION_REFUSED"), false, false, false, ""⟩ =
      [Ev.print "Navigating to http://localhost:3000/app",
       Ev.print "Error: net::ERR_CONNECTION_REFUSED", Ev.close] ∧
    shots (runList ⟨some (1, "net::ERR_CONNECTION_REFUSED"), false, false, false, ""⟩) = 0 := by
  constructor <;> decide

/-- C9 amended: whenever a failure is raised in the body of a verification
script, it is caught, an error line holding the exception text is printed and
the browser is closed last, the script returning normally; only
`verify_event_form.py` captures a failure screenshot (`verification/error.png`)
before closing — `verify_event_list.py` captures none. -/
theorem C9_failure_handling (wf : FormWorld) (wl : ListWorld) (ef el : String)
    (hf : (formBody wf).2 = some ef) (hl : (listBody wl).2 = some el) :
    (Ev.print ("ERROR: " ++ ef) ∈ runForm wf ∧
     Ev.shot "verification/error.png" ∈ runForm wf ∧
     (runForm wf).getLast? = some Ev.close) ∧
    (Ev.print ("Error: " ++ el) ∈ runList wl ∧
     shots (runList wl) = 0 ∧
     (runList wl).getLast? = some Ev.close) := by
  have hs := listBody_raised_shots wl el hl
  refine ⟨⟨?_, ?_, ?_⟩, ?_, ?_, ?_⟩
  · simp [runForm, hf]
  · simp [runForm, hf]
  · simp only [runForm]
    rw [List.getLast?_append_cons]
    rfl
  · simp [runList, hl]
  · simp [runList, hl, shots_append, shots_print_cons, shots_close_cons, shots_nil, hs]
  · simp only [runList]
    rw [List.getLast?_append_cons]
    rfl

/-- Witness for the amended C9: the autofocus assertion of the form script
times out, and the heading probe of the list script crashes. -/
theorem C9_failure_handling_witness :
    (Ev.print ("ERROR: " ++ "Timeout 5000ms exceeded.") ∈
        runForm ⟨some (3, "Timeout 5000ms exceeded."), none, 0, "", 0⟩ ∧
     Ev.shot "verification/error.png" ∈
        runForm ⟨some (3, "Timeout 5000ms exceeded."), none, 0, "", 0⟩ ∧
     (runForm ⟨some (3, "Timeout 5000ms exceeded."), none, 0, "", 0⟩).getLast? =
        some Ev.close) ∧
    (Ev.print ("Error: " ++ "Page crashed") ∈
        runList ⟨some (3, "Page crashed"), true, true, true, "Today Tomorrow"⟩ ∧
     shots (runList ⟨some (3, "Page crashed"), true, true, true, "Today Tomorrow"⟩) = 0 ∧
     (runList ⟨some (3, "Page crashed"), true, true, true, "Today Tomorrow"⟩).getLast? =
        some Ev.close) :=
  C9_failure_handling ⟨some (3, "Timeout 5000ms exceeded."), none, 0, "", 0⟩
    ⟨some (3, "Page crashed"), true, true, true, "Today Tomorrow"⟩
    "Timeout 5000ms exceeded." "Page crashed" (by decide) (by decide)

/-- C10: in both verification scripts, on every execution path — all steps
succeeding or an exception raised and caught — the browser is closed exactly
once, as the final action before `run` returns. -/
theorem C10_browser_always_closed (wf : FormWorld) (wl : ListWorld) :
    closes (runForm wf) = 1 ∧ (runForm wf).getLast? = some Ev.close ∧
    closes (runList wl) = 1 ∧ (runList wl).getLast? = some Ev.close := by
  refine ⟨?_, ?_, ?_, ?_⟩
  · cases hm : (formBody wf).2 with
    | some m =>
      simp [runForm, hm, closes_append, closes_print_cons, closes_shot_cons,
        closes_close_cons, closes_nil, formBody_closes]
    | none =>
      simp [runForm, hm, closes_append, closes_print_cons, closes_shot_cons,
        closes_close_cons, closes_nil, formBody_closes]
  · simp only [runForm]
    rw [List.getLast?_append_cons]
    rfl
  · cases hm : (listBody wl).2 with
    | some m =>
      simp [runList, hm, closes_append, closes_print_cons, closes_shot_cons,
        closes_close_cons, closes_nil, listBody_closes]
    | none =>
      simp [runList, hm, closes_append, closes_print_cons, closes_shot_cons,
        closes_close_cons, closes_nil, listBody_closes]
  · simp only [runList]
    rw [List.getLast?_append_cons]
    rfl

end Televent
